import Mathlib

/-! Verification development for the TrenchBank serverless API routes: the
pending-deposits ledger, the two Cryptomus webhook receivers, the per-wallet
balance route and the card store route.

Modelling conventions (uniform through the file):
* JS numbers carrying money amounts are modelled as rationals (`ℚ`); the
  source's float literal `0.02` is written `2 / 100`.
* ISO-8601 timestamp strings, which the source only produces with
  `new Date().toISOString()` and only consumes with `new Date(s).getTime()`,
  are modelled directly as integer milliseconds since the epoch.
* The Vercel KV store is external state: each handler takes the stored value
  as an argument and returns the value it leaves stored.  `crypto.randomUUID()`
  and the current time are explicit `freshId` / `now` parameters.
* Fallible JS values (`undefined` / `null`) are `Option`s. -/

namespace TrenchBank

/-! Deposit ledger (`lib/pending-deposits`, the unnamed source `part_000`). -/

inductive DepositStatus where
  | pending
  | sent
  | confirmed
  | credited
  | failed
  | expired
  deriving DecidableEq, Repr

/-- Record shape of `PendingDeposit`.  Optional TypeScript fields are
`Option`s; `createdAt` and the transition timestamps are integer
milliseconds. -/
structure PendingDeposit where
  id : String
  paymentId : String
  walletAddress : Option String
  amountUsd : ℚ
  amountCrypto : Option String
  currency : String
  depositAddress : Option String
  cryptomusUrl : Option String
  transactionSignature : Option String
  status : DepositStatus
  createdAt : Int
  sentAt : Option Int
  confirmedAt : Option Int
  creditedAt : Option Int
  cardCreated : Option Bool
  cardId : Option String
  error : Option String
  deriving DecidableEq, Repr

/-- The `additionalData : Partial<PendingDeposit>` argument of
`updateDepositStatus`, restricted to the fields that the repository's call
sites (the four `markDepositAs...` helpers) ever supply.  The outer `Option`
records whether the property is present in the object literal at all; the
inner value is the JS value, which may itself be `undefined` (`none`), so
spreading a present-but-undefined property overwrites the stored field with
`undefined`. -/
structure DepositPatch where
  transactionSignature : Option (Option String) := none
  sentAt : Option (Option Int) := none
  confirmedAt : Option (Option Int) := none
  creditedAt : Option (Option Int) := none
  cardCreated : Option (Option Bool) := none
  cardId : Option (Option String) := none
  error : Option (Option String) := none
  deriving DecidableEq, Repr

/-- Effect of the JS spread `{...record, ...additionalData}`. -/
def applyPatch (p : DepositPatch) (d : PendingDeposit) : PendingDeposit :=
  { d with
    transactionSignature := p.transactionSignature.getD d.transactionSignature,
    sentAt := p.sentAt.getD d.sentAt,
    confirmedAt := p.confirmedAt.getD d.confirmedAt,
    creditedAt := p.creditedAt.getD d.creditedAt,
    cardCreated := p.cardCreated.getD d.cardCreated,
    cardId := p.cardId.getD d.cardId,
    error := p.error.getD d.error }

/-- Argument of `addPendingDeposit`: `Omit<PendingDeposit, 'id' | 'createdAt'
| 'status'>`.  Fields that are optional in the record default to absent. -/
structure NewDeposit where
  paymentId : String
  walletAddress : Option String := none
  amountUsd : ℚ
  amountCrypto : Option String := none
  currency : String
  depositAddress : Option String := none
  cryptomusUrl : Option String := none
  transactionSignature : Option String := none
  sentAt : Option Int := none
  confirmedAt : Option Int := none
  creditedAt : Option Int := none
  cardCreated : Option Bool := none
  cardId : Option String := none
  error : Option String := none
  deriving DecidableEq, Repr

/-- `addPendingDeposit`: append a record with a fresh id, `createdAt` set to
the current time and status `pending`; return the new list and the record. -/
def addPendingDeposit (freshId : String) (now : Int) (nd : NewDeposit)
    (deposits : List PendingDeposit) : List PendingDeposit × PendingDeposit :=
  let newDeposit : PendingDeposit :=
    { id := freshId, paymentId := nd.paymentId,
      walletAddress := nd.walletAddress, amountUsd := nd.amountUsd,
      amountCrypto := nd.amountCrypto, currency := nd.currency,
      depositAddress := nd.depositAddress, cryptomusUrl := nd.cryptomusUrl,
      transactionSignature := nd.transactionSignature,
      status := DepositStatus.pending, createdAt := now,
      sentAt := nd.sentAt, confirmedAt := nd.confirmedAt,
      creditedAt := nd.creditedAt, cardCreated := nd.cardCreated,
      cardId := nd.cardId, error := nd.error }
  (deposits ++ [newDeposit], newDeposit)

/-- `updateDepositStatus`: replace the first record whose `paymentId` matches
by `{...record, ...additionalData, status}` and return it; when no record
matches, the list is written back as loaded and `null` (`none`) returned. -/
def updateDepositStatus (paymentId : String) (status : DepositStatus)
    (patch : DepositPatch) :
    List PendingDeposit → List PendingDeposit × Option PendingDeposit
  | [] => ([], none)
  | d :: ds =>
    if d.paymentId = paymentId then
      let upd := { applyPatch patch d with status := status }
      (upd :: ds, some upd)
    else
      let rest := updateDepositStatus paymentId status patch ds
      (d :: rest.1, rest.2)

/-- `getDepositByPaymentId`: first record with the given `paymentId`. -/
def getDepositByPaymentId (paymentId : String) :
    List PendingDeposit → Option PendingDeposit
  | [] => none
  | d :: ds =>
    if d.paymentId = paymentId then some d
    else getDepositByPaymentId paymentId ds

/-- `markDepositAsSent`. -/
def markDepositAsSent (now : Int) (paymentId sig : String)
    (deposits : List PendingDeposit) :
    List PendingDeposit × Option PendingDeposit :=
  updateDepositStatus paymentId DepositStatus.sent
    { transactionSignature := some (some sig), sentAt := some (some now) }
    deposits

/-- `markDepositAsConfirmed`. -/
def markDepositAsConfirmed (now : Int) (paymentId : String)
    (deposits : List PendingDeposit) :
    List PendingDeposit × Option PendingDeposit :=
  updateDepositStatus paymentId DepositStatus.confirmed
    { confirmedAt := some (some now) } deposits

/-- `markDepositAsCredited`: the object literal always contains the
`creditedAt`, `cardCreated` and `cardId` keys, so a call without a card id
overwrites any stored `cardId` with `undefined`. -/
def markDepositAsCredited (now : Int) (paymentId : String) (cardCreated : Bool)
    (cardId : Option String) (deposits : List PendingDeposit) :
    List PendingDeposit × Option PendingDeposit :=
  updateDepositStatus paymentId DepositStatus.credited
    { creditedAt := some (some now), cardCreated := some (some cardCreated),
      cardId := some cardId } deposits

/-- `markDepositAsFailed`. -/
def markDepositAsFailed (paymentId err : String)
    (deposits : List PendingDeposit) :
    List PendingDeposit × Option PendingDeposit :=
  updateDepositStatus paymentId DepositStatus.failed
    { error := some (some err) } deposits

/-- The `SEVEN_DAYS` constant of the expiry sweep, in milliseconds. -/
def SEVEN_DAYS : Int := 7 * 24 * 60 * 60 * 1000

/-- Guard of the expiry-sweep loop body: record still `pending` or `sent` and
age `now - createdAt` strictly greater than seven days. -/
def shouldExpire (now : Int) (d : PendingDeposit) : Prop :=
  (d.status = DepositStatus.pending ∨ d.status = DepositStatus.sent) ∧
    now - d.createdAt > SEVEN_DAYS

instance (now : Int) (d : PendingDeposit) : Decidable (shouldExpire now d) := by
  unfold shouldExpire
  infer_instance

/-- `cleanupExpiredDeposits`: mark every `pending`/`sent` record older than
seven days as `expired`, leave everything else alone, and return the new list
together with the number of records expired. -/
def cleanupExpiredDeposits (now : Int) :
    List PendingDeposit → List PendingDeposit × Nat
  | [] => ([], 0)
  | d :: ds =>
    let rest := cleanupExpiredDeposits now ds
    if shouldExpire now d then
      ({ d with status := DepositStatus.expired } :: rest.1, rest.2 + 1)
    else
      (d :: rest.1, rest.2)

/-! Balance route (`api/cards/store/route.ts`, second half of the file: the
balance keyspace). -/

inductive BalanceAction where
  | credit
  | debit
  deriving DecidableEq, Repr

/-- The `UserBalance` record stored per wallet. -/
structure UserBalance where
  balance : ℚ
  totalDeposited : ℚ
  totalSpent : ℚ
  lastUpdated : Int
  deriving DecidableEq, Repr

/-- POST handler of the balance route on a request that passes the parameter
validation (`walletAddress`, `action` and numeric `amount` present).
`current` is the record `getBalance` loads (a zeroed record when the wallet
has none).  Returns the record left in the store — unchanged when the debit
is rejected, since `saveBalance` is only reached on success — together with
the HTTP status and the `success` flag of the response. -/
def balanceUpdatePost (now : Int) (current : UserBalance)
    (action : BalanceAction) (amount : ℚ) : UserBalance × Nat × Bool :=
  match action with
  | BalanceAction.credit =>
    ({ current with
       balance := current.balance + amount,
       totalDeposited := current.totalDeposited + amount,
       lastUpdated := now }, 200, true)
  | BalanceAction.debit =>
    if current.balance < amount then
      (current, 400, false)
    else
      ({ current with
         balance := current.balance - amount,
         totalSpent := current.totalSpent + amount,
         lastUpdated := now }, 200, true)

/-! Card store route (`api/cards/store/route.ts`, first half: the cards
keyspace). -/

inductive CardStatus where
  | active
  | frozen
  | inactive
  deriving DecidableEq, Repr

/-- The `StoredCard` record. -/
structure StoredCard where
  id : String
  cardId : String
  walletAddress : String
  createdAt : Int
  lastFour : Option String
  status : CardStatus
  balance : Option ℚ
  cardNumber : Option String
  cvv : Option String
  expiry : Option String
  cardHolder : Option String
  deriving DecidableEq, Repr

/-- Body of the cards-route POST after destructuring: `cardId` and
`walletAddress` are required (checked for JS truthiness), the six remaining
fields may be absent (`undefined`). -/
structure CardPostBody where
  cardId : String
  walletAddress : String
  lastFour : Option String := none
  balance : Option ℚ := none
  cardNumber : Option String := none
  cvv : Option String := none
  expiry : Option String := none
  cardHolder : Option String := none
  deriving DecidableEq, Repr

/-- Overwrite of an existing card: the object literal assigns all six body
fields unconditionally, so a field absent from the request (`undefined`)
replaces the stored value; `id`, `cardId`, `walletAddress`, `createdAt` and
`status` are carried over by the spread of the existing record. -/
def mergeCard (c : StoredCard) (b : CardPostBody) : StoredCard :=
  { c with
    lastFour := b.lastFour, balance := b.balance,
    cardNumber := b.cardNumber, cvv := b.cvv,
    expiry := b.expiry, cardHolder := b.cardHolder }

/-- The new record pushed when no card with the body's `cardId` exists. -/
def freshCard (freshId : String) (now : Int) (b : CardPostBody) : StoredCard :=
  { id := freshId, cardId := b.cardId, walletAddress := b.walletAddress,
    createdAt := now, lastFour := b.lastFour, status := CardStatus.active,
    balance := b.balance, cardNumber := b.cardNumber, cvv := b.cvv,
    expiry := b.expiry, cardHolder := b.cardHolder }

/-- The `findIndex`-then-replace-or-push body of the cards POST: replace the
first card whose `cardId` matches, else append the fresh record. -/
def upsertCard (freshId : String) (now : Int) (b : CardPostBody) :
    List StoredCard → List StoredCard
  | [] => [freshCard freshId now b]
  | c :: cs =>
    if c.cardId = b.cardId then mergeCard c b :: cs
    else c :: upsertCard freshId now b cs

/-- POST handler of the cards route: an empty (JS-falsy) `cardId` or
`walletAddress` is rejected with 400 before anything is saved (`none`);
otherwise the wallet's card list is upserted and saved. -/
def cardsStorePost (freshId : String) (now : Int) (b : CardPostBody)
    (userCards : List StoredCard) : Option (List StoredCard) :=
  if b.cardId = "" ∨ b.walletAddress = "" then none
  else some (upsertCard freshId now b userCards)

/-! Deposit webhook — first receiver variant
(`api/deposit/webhook/route.ts`). -/

/-- Fields of the Cryptomus webhook payload that the handler reads, minus the
`sign` field (stripped before verification).  `payment_amount_usd` is the
numeric value that `parseFloat` extracts from the payload string;
`additionalWallet` is what the best-effort `JSON.parse(additional_data).wallet`
extraction yields — `none` when the field is missing or unparsable, which
leaves the wallet address empty rather than failing. -/
structure CryptomusPayloadData where
  uuid : String
  order_id : String
  payment_amount_usd : ℚ
  is_final : Bool
  status : String
  additionalWallet : Option String
  deriving DecidableEq, Repr

/-- The full payload: the stripped fields plus the `sign` field. -/
structure CryptomusWebhookPayload extends CryptomusPayloadData where
  sign : String
  deriving DecidableEq, Repr

/-- Modelled from the spec: `isPaymentSuccessful` is imported from
`lib/cryptomus`, whose source is not in the repository snapshot.  The spec
says a payload that "indicates success" is credited, with status `paid` as
its worked example, and the second receiver treats `paid` and `paid_over` as
the paid Cryptomus statuses, so the predicate accepts exactly those. -/
def isPaymentSuccessful (status : String) : Prop :=
  status = "paid" ∨ status = "paid_over"

instance (status : String) : Decidable (isPaymentSuccessful status) := by
  unfold isPaymentSuccessful
  infer_instance

/-- The deposit record the first receiver stores per order id. -/
structure WebhookDeposit where
  orderId : String
  walletAddress : String
  amount : ℚ
  status : String
  paymentId : String
  paidAt : Option Int
  deriving DecidableEq, Repr

/-- The `webhook_deposit:` keyspace, newest write first; `kv.set` overwrites,
which reading the most recent entry for a key models. -/
abbrev WebhookStore := List (String × WebhookDeposit)

/-- `kv.set` on the webhook-deposit keyspace. -/
def kvSetWebhookDeposit (orderId : String) (d : WebhookDeposit)
    (store : WebhookStore) : WebhookStore :=
  (orderId, d) :: store

/-- `kv.get` on the webhook-deposit keyspace. -/
def kvGetWebhookDeposit (orderId : String) :
    WebhookStore → Option WebhookDeposit
  | [] => none
  | e :: es =>
    if e.1 = orderId then some e.2 else kvGetWebhookDeposit orderId es

/-- POST handler of the deposit webhook (first receiver variant).  `verify`
stands for `verifyWebhookSignature` from `lib/cryptomus`, whose implementation
is not in the snapshot: the handler calls it on the payload minus its `sign`
field and on the signature, and branches only on the boolean result, so it is
a parameter.  Result: the keyspace left stored, the HTTP status, and the
`success` flag of the response. -/
def depositWebhookPost (verify : CryptomusPayloadData → String → Bool)
    (now : Int) (p : CryptomusWebhookPayload) (store : WebhookStore) :
    WebhookStore × Nat × Bool :=
  if verify p.toCryptomusPayloadData p.sign = false then
    (store, 401, false)
  else
    let walletAddress := p.additionalWallet.getD ""
    if isPaymentSuccessful p.status then
      let totalPaid := p.payment_amount_usd
      let fee := totalPaid * (2 / 100) + 5
      let creditAmount := totalPaid - fee
      (kvSetWebhookDeposit p.order_id
        { orderId := p.order_id, walletAddress := walletAddress,
          amount := creditAmount, status := "paid", paymentId := p.uuid,
          paidAt := some now } store, 200, true)
    else if p.is_final then
      (kvSetWebhookDeposit p.order_id
        { orderId := p.order_id, walletAddress := walletAddress,
          amount := 0, status := p.status, paymentId := p.uuid,
          paidAt := none } store, 200, true)
    else
      (store, 200, true)

/-! Kripicard webhook — second receiver variant
(`api/kripicard/webhook/route.ts`). -/

/-- Fields of the `CryptomusWebhook` interface that this route reads.
`payment_amount_usd` is the value of `parseFloat(...) || 0` (so an unparsable
string is already collapsed to `0`).  The `sign` field is declared in the
interface and carried here, but the handler never reads it. -/
structure KripicardWebhookPayload where
  uuid : String
  order_id : String
  payment_amount : String
  payment_amount_usd : ℚ
  is_final : Bool
  status : String
  currency : String
  network : String
  txid : String
  sign : String
  deriving DecidableEq, Repr

/-- Outcome of the downstream card-creation call as the handler sees it:
`success` and the (possibly absent) `cardId` of the decoded JSON body. -/
structure KripicardCreateResult where
  success : Bool
  cardId : Option String
  deriving DecidableEq, Repr

/-- POST handler of the kripicard webhook (second receiver variant).  The
downstream card-creation call — a `fetch` of `/api/kripicard/create`, a route
absent from the snapshot — is modelled by its outcome `cardCall`: `none` when
the fetch or the JSON decoding throws, `some r` otherwise.  Note that the
handler never consults the payload's `sign` field: this variant performs no
signature verification.  Result: the deposit list left stored, the HTTP
status, and the `success` flag. -/
def kripicardWebhookPost (freshId : String) (now : Int)
    (cardCall : Option KripicardCreateResult) (p : KripicardWebhookPayload)
    (deposits0 : List PendingDeposit) : List PendingDeposit × Nat × Bool :=
  let paymentId := p.uuid
  let status := p.status
  let tracked :=
    match getDepositByPaymentId paymentId deposits0 with
    | some d => (deposits0, d)
    | none =>
      addPendingDeposit freshId now
        { paymentId := paymentId, amountUsd := p.payment_amount_usd,
          amountCrypto := some (p.payment_amount ++ " " ++ p.currency),
          currency := p.currency } deposits0
  let deposits1 := tracked.1
  let deposit := tracked.2
  if status = "paid" ∨ status = "paid_over" ∨ status = "confirm_check" then
    let deposits2 := (markDepositAsConfirmed now paymentId deposits1).1
    let deposits3 :=
      if deposit.cardCreated = some true then deposits2
      else
        match cardCall with
        | some r =>
          if r.success then
            (markDepositAsCredited now paymentId true r.cardId deposits2).1
          else
            (markDepositAsCredited now paymentId false none deposits2).1
        | none => (markDepositAsCredited now paymentId false none deposits2).1
    (deposits3, 200, true)
  else if status = "cancel" ∨ status = "fail" ∨ status = "wrong_amount" then
    ((markDepositAsFailed paymentId ("Payment " ++ status) deposits1).1,
      200, true)
  else
    (deposits1, 200, true)

/-- GET handler of the kripicard webhook route: a `paymentId` query parameter
matching no tracked deposit yields 404 with `success := false`; a match, or a
request without the parameter (full dump plus summary), yields 200. -/
def kripicardWebhookGet (paymentId : Option String)
    (deposits : List PendingDeposit) : Nat × Bool :=
  match paymentId with
  | some pid =>
    match getDepositByPaymentId pid deposits with
    | some _ => (200, true)
    | none => (404, false)
  | none => (200, true)

/-! Helper lemmas about the ledger operations. -/

/-- The spread of a patch never touches the `paymentId` field. -/
theorem applyPatch_paymentId (p : DepositPatch) (d : PendingDeposit) :
    (applyPatch p d).paymentId = d.paymentId := rfl

/-- The list of `paymentId`s of a ledger. -/
def paymentIds (ds : List PendingDeposit) : List String :=
  ds.map PendingDeposit.paymentId

theorem getDepositByPaymentId_eq_none (pid : String)
    (ds : List PendingDeposit) :
    getDepositByPaymentId pid ds = none ↔ pid ∉ paymentIds ds := by
  induction ds with
  | nil => simp [getDepositByPaymentId, paymentIds]
  | cons d ds ih =>
    by_cases h : d.paymentId = pid
    · simp [getDepositByPaymentId, paymentIds, h]
    · simp [getDepositByPaymentId, paymentIds, h, Ne.symm h] at ih ⊢
      exact ih

theorem updateDepositStatus_not_found (pid : String) (st : DepositStatus)
    (pa : DepositPatch) (ds : List PendingDeposit)
    (h : getDepositByPaymentId pid ds = none) :
    updateDepositStatus pid st pa ds = (ds, none) := by
  induction ds with
  | nil => rfl
  | cons d ds ih =>
    simp only [getDepositByPaymentId] at h
    by_cases hd : d.paymentId = pid
    · simp [hd] at h
    · rw [if_neg hd] at h
      simp only [updateDepositStatus, if_neg hd, ih h]

theorem updateDepositStatus_found (pid : String) (st : DepositStatus)
    (pa : DepositPatch) (ds : List PendingDeposit) (d : PendingDeposit)
    (h : getDepositByPaymentId pid ds = some d) :
    (updateDepositStatus pid st pa ds).2 =
      some { applyPatch pa d with status := st } ∧
    getDepositByPaymentId pid (updateDepositStatus pid st pa ds).1 =
      some { applyPatch pa d with status := st } := by
  induction ds with
  | nil => simp [getDepositByPaymentId] at h
  | cons e ds ih =>
    by_cases he : e.paymentId = pid
    · rw [getDepositByPaymentId, if_pos he] at h
      obtain rfl : e = d := by injection h
      refine ⟨by simp [updateDepositStatus, he], ?_⟩
      simp [updateDepositStatus, getDepositByPaymentId, applyPatch, he]
    · rw [getDepositByPaymentId, if_neg he] at h
      have hr := ih h
      simp only [updateDepositStatus, if_neg he]
      exact ⟨hr.1, by simp [getDepositByPaymentId, he, hr.2]⟩

theorem paymentIds_updateDepositStatus (pid : String) (st : DepositStatus)
    (pa : DepositPatch) (ds : List PendingDeposit) :
    paymentIds (updateDepositStatus pid st pa ds).1 = paymentIds ds := by
  induction ds with
  | nil => rfl
  | cons d ds ih =>
    by_cases hd : d.paymentId = pid
    · simp [updateDepositStatus, hd, paymentIds, applyPatch_paymentId]
    · simp [updateDepositStatus, hd, paymentIds] at ih ⊢
      exact ih

theorem paymentIds_addPendingDeposit (freshId : String) (now : Int)
    (nd : NewDeposit) (ds : List PendingDeposit) :
    paymentIds (addPendingDeposit freshId now nd ds).1 =
      paymentIds ds ++ [nd.paymentId] := by
  simp [addPendingDeposit, paymentIds]

/-- The result of a status-overwriting update always carries the requested
status. -/
theorem updateDepositStatus_status (pid : String) (st : DepositStatus)
    (pa : DepositPatch) (ds : List PendingDeposit) (d : PendingDeposit)
    (h : (updateDepositStatus pid st pa ds).2 = some d) :
    d.status = st := by
  induction ds with
  | nil => simp [updateDepositStatus] at h
  | cons e ds ih =>
    by_cases he : e.paymentId = pid
    · simp only [updateDepositStatus, if_pos he] at h
      obtain rfl : { applyPatch pa e with status := st } = d := by injection h
      rfl
    · simp only [updateDepositStatus, if_neg he] at h
      exact ih h

/-- Pointwise characterisation of the expiry sweep: the stored list is the
original with exactly the over-age `pending`/`sent` records re-statused to
`expired`, and the returned count is the number of such records. -/
theorem cleanupExpiredDeposits_spec (now : Int) (ds : List PendingDeposit) :
    (cleanupExpiredDeposits now ds).1 =
      ds.map (fun d => if shouldExpire now d
        then { d with status := DepositStatus.expired } else d) ∧
    (cleanupExpiredDeposits now ds).2 =
      (ds.filter (fun d => decide (shouldExpire now d))).length := by
  induction ds with
  | nil => exact ⟨rfl, rfl⟩
  | cons d ds ih =>
    by_cases h : shouldExpire now d <;>
      simp [cleanupExpiredDeposits, h, ih.1, ih.2]

theorem upsertCard_found (freshId : String) (now : Int) (b : CardPostBody)
    (l1 l2 : List StoredCard) (c : StoredCard)
    (h1 : ∀ x ∈ l1, x.cardId ≠ b.cardId) (hc : c.cardId = b.cardId) :
    upsertCard freshId now b (l1 ++ c :: l2) = l1 ++ mergeCard c b :: l2 := by
  induction l1 with
  | nil => simp [upsertCard, hc]
  | cons a l1 ih =>
    have ha : a.cardId ≠ b.cardId := h1 a (List.mem_cons_self a l1)
    simp [upsertCard, ha, ih (fun x hx => h1 x (List.mem_cons_of_mem a hx))]

theorem upsertCard_not_found (freshId : String) (now : Int) (b : CardPostBody)
    (cards : List StoredCard) (h : ∀ x ∈ cards, x.cardId ≠ b.cardId) :
    upsertCard freshId now b cards = cards ++ [freshCard freshId now b] := by
  induction cards with
  | nil => rfl
  | cons a cards ih =>
    have ha : a.cardId ≠ b.cardId := h a (List.mem_cons_self a cards)
    simp [upsertCard, ha, ih (fun x hx => h x (List.mem_cons_of_mem a hx))]

/-- The second-variant webhook either keeps the ledger's `paymentId` list
intact (deposit already tracked) or appends exactly the payload's `uuid`
(deposit unknown, added before the status update). -/
theorem kripicardWebhookPost_paymentIds (freshId : String) (now : Int)
    (cardCall : Option KripicardCreateResult) (p : KripicardWebhookPayload)
    (ds : List PendingDeposit) :
    paymentIds (kripicardWebhookPost freshId now cardCall p ds).1 =
      paymentIds ds ∨
    (getDepositByPaymentId p.uuid ds = none ∧
      paymentIds (kripicardWebhookPost freshId now cardCall p ds).1 =
        paymentIds ds ++ [p.uuid]) := by
  cases hf : getDepositByPaymentId p.uuid ds with
  | some d =>
    left
    by_cases h1 : p.status = "paid" ∨ p.status = "paid_over" ∨
        p.status = "confirm_check"
    · by_cases h2 : d.cardCreated = some true
      · simp [kripicardWebhookPost, hf, h1, h2, markDepositAsConfirmed,
          paymentIds_updateDepositStatus]
      · cases cardCall with
        | none =>
          simp [kripicardWebhookPost, hf, h1, h2, markDepositAsConfirmed,
            markDepositAsCredited, paymentIds_updateDepositStatus]
        | some r =>
          by_cases h3 : r.success <;>
            simp [kripicardWebhookPost, hf, h1, h2, h3,
              markDepositAsConfirmed, markDepositAsCredited,
              paymentIds_updateDepositStatus]
    · by_cases h4 : p.status = "cancel" ∨ p.status = "fail" ∨
          p.status = "wrong_amount"
      · simp [kripicardWebhookPost, hf, h1, h4, markDepositAsFailed,
          paymentIds_updateDepositStatus]
      · simp [kripicardWebhookPost, hf, h1, h4]
  | none =>
    right
    refine ⟨rfl, ?_⟩
    by_cases h1 : p.status = "paid" ∨ p.status = "paid_over" ∨
        p.status = "confirm_check"
    · by_cases h2 : (addPendingDeposit freshId now
          { paymentId := p.uuid, amountUsd := p.payment_amount_usd,
            amountCrypto := some (p.payment_amount ++ " " ++ p.currency),
            currency := p.currency } ds).2.cardCreated = some true
      · simp [kripicardWebhookPost, hf, h1, h2, markDepositAsConfirmed,
          paymentIds_updateDepositStatus, paymentIds_addPendingDeposit]
      · cases cardCall with
        | none =>
          simp [kripicardWebhookPost, hf, h1, h2, markDepositAsConfirmed,
            markDepositAsCredited, paymentIds_updateDepositStatus,
            paymentIds_addPendingDeposit]
        | some r =>
          by_cases h3 : r.success <;>
            simp [kripicardWebhookPost, hf, h1, h2, h3,
              markDepositAsConfirmed, markDepositAsCredited,
              paymentIds_updateDepositStatus, paymentIds_addPendingDeposit]
    · by_cases h4 : p.status = "cancel" ∨ p.status = "fail" ∨
          p.status = "wrong_amount"
      · simp [kripicardWebhookPost, hf, h1, h4, markDepositAsFailed,
          paymentIds_updateDepositStatus, paymentIds_addPendingDeposit]
      · simp [kripicardWebhookPost, hf, h1, h4, paymentIds_addPendingDeposit]

/-! Concrete fixtures used by the closed instances below. -/

/-- A sample tracked deposit. -/
def sampleDeposit : PendingDeposit :=
  { id := "dep-1", paymentId := "pay-1", walletAddress := none,
    amountUsd := 50, amountCrypto := none, currency := "SOL",
    depositAddress := none, cryptomusUrl := none,
    transactionSignature := none, status := DepositStatus.pending,
    createdAt := 0, sentAt := none, confirmedAt := none, creditedAt := none,
    cardCreated := none, cardId := none, error := none }

/-- A second-variant payload with status `paid` for payment `pay-1`.  Its
`sign` field holds a value no verifier accepts; the handler never reads it. -/
def paidKripiPayload : KripicardWebhookPayload :=
  { uuid := "pay-1", order_id := "ord-1", payment_amount := "0.5",
    payment_amount_usd := 100, is_final := true, status := "paid",
    currency := "SOL", network := "sol", txid := "tx-1", sign := "invalid" }

/-- A verifier that rejects every signature. -/
def rejectAllVerifier : CryptomusPayloadData → String → Bool :=
  fun _ _ => false

/-- A verifier that accepts every signature. -/
def acceptAllVerifier : CryptomusPayloadData → String → Bool :=
  fun _ _ => true

/-- A first-variant payload with status `paid` for 100 USD. -/
def paid100Payload : CryptomusWebhookPayload :=
  { uuid := "u-7", order_id := "ord-7", payment_amount_usd := 100,
    is_final := true, status := "paid", additionalWallet := some "w7",
    sign := "sig-7" }

/-- A stored card with all sensitive optional fields present. -/
def fullCard : StoredCard :=
  { id := "card-uuid-1", cardId := "kc-1", walletAddress := "w1",
    createdAt := 0, lastFour := some ("1234"), status := CardStatus.active,
    balance := some 25, cardNumber := some ("4111111111111111"),
    cvv := some ("123"), expiry := some ("12/30"),
    cardHolder := some ("A HOLDER") }

/-- A cards-route POST body supplying only the two required identifiers. -/
def bareCardBody : CardPostBody :=
  { cardId := "kc-1", walletAddress := "w1" }

/-- What the bare request leaves stored in place of `fullCard`: every one of
the six mutable fields overwritten with `undefined`. -/
def clearedCard : StoredCard :=
  { fullCard with
    lastFour := none, balance := none, cardNumber := none,
    cvv := none, expiry := none, cardHolder := none }

/-- A successful card-creation outcome (used in concrete instances). -/
def okCardResult : KripicardCreateResult :=
  { success := true, cardId := some ("card-77") }

/-! Claim theorems. -/

/-- C1 is false as stated: the second webhook variant performs no signature
verification at all — the handler never reads the payload's `sign` field.
On a payload whose signature no verifier accepts, it still returns the 200
success response (not 401) and mutates the deposit ledger (the empty ledger
gains a record). -/
theorem C1_counterexample :
    paidKripiPayload.sign = "invalid" ∧
    (kripicardWebhookPost ("dep-2") 3 none paidKripiPayload []).2 =
      (200, true) ∧
    (kripicardWebhookPost ("dep-2") 3 none paidKripiPayload []).1 ≠ [] := by
  refine ⟨rfl, by decide, by decide⟩

/-- C1 (amended): only the first webhook variant checks the signature.  For
every verifier, time, payload and stored state, a payload whose signature
fails verification makes the deposit-webhook POST respond 401 with
`success := false` while the webhook-deposit store is left exactly as it
was; the second variant performs no verification and processes any payload
(see the counterexample). -/
theorem C1_first_variant_rejects_bad_signature
    (verify : CryptomusPayloadData → String → Bool) (now : Int)
    (p : CryptomusWebhookPayload) (store : WebhookStore)
    (h : verify p.toCryptomusPayloadData p.sign = false) :
    depositWebhookPost verify now p store = (store, 401, false) := by
  simp [depositWebhookPost, h]

/-- Concrete instance of the amended C1 theorem. -/
theorem C1_first_variant_rejects_bad_signature_witness :
    rejectAllVerifier paid100Payload.toCryptomusPayloadData
        paid100Payload.sign = false ∧
    depositWebhookPost rejectAllVerifier 4 paid100Payload [] =
      ([], 401, false) :=
  ⟨rfl, C1_first_variant_rejects_bad_signature rejectAllVerifier 4
    paid100Payload [] rfl⟩

/-- C2 is false as stated: `markDepositAsSent` moves a record already in the
terminal status `credited` back to `sent` — the update is an unconditional
overwrite with no transition table. -/
theorem C2_counterexample :
    (markDepositAsSent 1 ("pay-1") ("tx-sig")
        [{ sampleDeposit with status := DepositStatus.credited }]).1.map
      PendingDeposit.status = [DepositStatus.sent] := by
  decide

/-- C2 (amended): `updateDepositStatus` (hence every `markDepositAs...`
helper) overwrites the matched record's status with the requested status
unconditionally, whatever the current status — terminal ones included; only
the expiry sweep is guarded: it re-statuses only `pending`/`sent` records,
always to `expired`, and alters no other field. -/
theorem C2_unconditional_overwrite (pid : String) (st : DepositStatus)
    (pa : DepositPatch) (now : Int) (ds : List PendingDeposit)
    (d : PendingDeposit) (h : getDepositByPaymentId pid ds = some d) :
    (updateDepositStatus pid st pa ds).2 =
      some { applyPatch pa d with status := st } ∧
    (∀ e ∈ (cleanupExpiredDeposits now ds).1,
      e ∈ ds ∨ ∃ e0 ∈ ds,
        (e0.status = DepositStatus.pending ∨
          e0.status = DepositStatus.sent) ∧
        e = { e0 with status := DepositStatus.expired }) := by
  refine ⟨(updateDepositStatus_found pid st pa ds d h).1, ?_⟩
  intro e he
  rw [(cleanupExpiredDeposits_spec now ds).1] at he
  rcases List.mem_map.mp he with ⟨e0, he0, heq⟩
  subst heq
  by_cases hx : shouldExpire now e0
  · exact Or.inr ⟨e0, he0, hx.1, by rw [if_pos hx]⟩
  · exact Or.inl (by rw [if_neg hx]; exact he0)

/-- Concrete instance of the amended C2 theorem: a `credited` record is
overwritten to `sent`. -/
theorem C2_unconditional_overwrite_witness :
    getDepositByPaymentId ("pay-1")
        [{ sampleDeposit with status := DepositStatus.credited }] =
      some { sampleDeposit with status := DepositStatus.credited } ∧
    (updateDepositStatus ("pay-1") DepositStatus.sent {}
        [{ sampleDeposit with status := DepositStatus.credited }]).2 =
      some { applyPatch {}
          { sampleDeposit with status := DepositStatus.credited }
          with status := DepositStatus.sent } :=
  ⟨by decide,
   (C2_unconditional_overwrite ("pay-1") DepositStatus.sent {} 0
      [{ sampleDeposit with status := DepositStatus.credited }]
      { sampleDeposit with status := DepositStatus.credited }
      (by decide)).1⟩

/-- C5: a debit whose amount strictly exceeds the wallet's current balance
is rejected with HTTP 400 and `success := false`, and the stored record
(all four fields, `lastUpdated` included) is exactly unchanged, since the
save is only reached on success. -/
theorem C5_insufficient_debit (now : Int) (current : UserBalance)
    (amount : ℚ) (h : current.balance < amount) :
    balanceUpdatePost now current BalanceAction.debit amount =
      (current, 400, false) := by
  simp [balanceUpdatePost, h]

/-- Concrete instance of the C5 theorem. -/
theorem C5_insufficient_debit_witness :
    (⟨5, 5, 0, 0⟩ : UserBalance).balance < 7 ∧
    balanceUpdatePost 3 ⟨5, 5, 0, 0⟩ BalanceAction.debit 7 =
      (⟨5, 5, 0, 0⟩, 400, false) :=
  ⟨by decide, C5_insufficient_debit 3 ⟨5, 5, 0, 0⟩ 7 (by decide)⟩

/-- C9: the expiry sweep re-statuses to `expired` exactly the `pending` and
`sent` records whose age strictly exceeds seven days (changing no other
field of any record, and leaving every other record untouched), and returns
the number of records it expired. -/
theorem C9_expiry_sweep (now : Int) (ds : List PendingDeposit) :
    (cleanupExpiredDeposits now ds).1 =
      ds.map (fun d => if shouldExpire now d
        then { d with status := DepositStatus.expired } else d) ∧
    (cleanupExpiredDeposits now ds).2 =
      (ds.filter (fun d => decide (shouldExpire now d))).length :=
  cleanupExpiredDeposits_spec now ds

/-- C10: on a `paymentId` matching no ledger record, `updateDepositStatus`
and each `markDepositAs...` helper built on it return `none` and write the
ledger back exactly as loaded, and the GET lookup responds 404 with
`success := false`. -/
theorem C10_unknown_payment_id (pid : String) (st : DepositStatus)
    (pa : DepositPatch) (now : Int) (sig err : String) (cardCreated : Bool)
    (cardId : Option String) (ds : List PendingDeposit)
    (h : getDepositByPaymentId pid ds = none) :
    updateDepositStatus pid st pa ds = (ds, none) ∧
    markDepositAsSent now pid sig ds = (ds, none) ∧
    markDepositAsConfirmed now pid ds = (ds, none) ∧
    markDepositAsCredited now pid cardCreated cardId ds = (ds, none) ∧
    markDepositAsFailed pid err ds = (ds, none) ∧
    kripicardWebhookGet (some pid) ds = (404, false) := by
  refine ⟨updateDepositStatus_not_found pid st pa ds h,
    updateDepositStatus_not_found _ _ _ _ h,
    updateDepositStatus_not_found _ _ _ _ h,
    updateDepositStatus_not_found _ _ _ _ h,
    updateDepositStatus_not_found _ _ _ _ h, ?_⟩
  simp [kripicardWebhookGet, h]

/-- Concrete instance of the C10 theorem. -/
theorem C10_unknown_payment_id_witness :
    getDepositByPaymentId ("pay-404") [sampleDeposit] = none ∧
    updateDepositStatus ("pay-404") DepositStatus.sent {} [sampleDeposit] =
      ([sampleDeposit], none) ∧
    kripicardWebhookGet (some ("pay-404")) [sampleDeposit] = (404, false) :=
  ⟨by decide,
   (C10_unknown_payment_id ("pay-404") DepositStatus.sent {} 0 ("s") ("e")
      false none [sampleDeposit] (by decide)).1,
   (C10_unknown_payment_id ("pay-404") DepositStatus.sent {} 0 ("s") ("e")
      false none [sampleDeposit] (by decide)).2.2.2.2.2⟩

/-- C3 is false as stated: when the downstream card-creation call fails, the
handler calls `markDepositAsCredited(paymentId, false)`, which overwrites the
status with `credited` — the deposit does not remain `confirmed`.  Here a
tracked pending deposit receives a `paid` webhook whose card call reports
failure: the final record is `credited` with `cardCreated = false`, and the
response is still the success response. -/
theorem C3_counterexample :
    (kripicardWebhookPost ("dep-9") 7
        (some { success := false, cardId := none }) paidKripiPayload
        [sampleDeposit]).1.map
      (fun d => (d.status, d.cardCreated)) =
      [(DepositStatus.credited, some false)] ∧
    (kripicardWebhookPost ("dep-9") 7
        (some { success := false, cardId := none }) paidKripiPayload
        [sampleDeposit]).2 = (200, true) := by
  refine ⟨by decide, by decide⟩

/-- C3 (amended): on a `paid` webhook for a tracked deposit not yet carrying
`cardCreated = true`, the deposit is confirmed and then marked via
`markDepositAsCredited`: if the downstream call succeeds the record ends
`credited` with `cardCreated = true` and the returned card id; if the call
fails or throws it still ends `credited` (not `confirmed`) with
`cardCreated = false` and no card id; in both cases the response to the
processor is the 200 success response. -/
theorem C3_card_call_outcome (freshId : String) (now : Int)
    (cardCall : Option KripicardCreateResult) (p : KripicardWebhookPayload)
    (ds : List PendingDeposit) (d : PendingDeposit)
    (hst : p.status = "paid")
    (hfind : getDepositByPaymentId p.uuid ds = some d)
    (hcc : d.cardCreated ≠ some true) :
    ∃ d2, getDepositByPaymentId p.uuid
        (kripicardWebhookPost freshId now cardCall p ds).1 = some d2 ∧
      d2.status = DepositStatus.credited ∧
      d2.cardCreated =
        some (cardCall.elim false KripicardCreateResult.success) ∧
      d2.cardId = cardCall.elim none
        (fun r => if r.success then r.cardId else none) ∧
      (kripicardWebhookPost freshId now cardCall p ds).2 = (200, true) := by
  have hconf := updateDepositStatus_found p.uuid DepositStatus.confirmed
    { confirmedAt := some (some now) } ds d hfind
  rcases cardCall with _ | r
  · have hmain : kripicardWebhookPost freshId now none p ds =
        ((markDepositAsCredited now p.uuid false none
          (markDepositAsConfirmed now p.uuid ds).1).1, 200, true) := by
      simp [kripicardWebhookPost, hfind, hst, hcc]
    have hcred := updateDepositStatus_found p.uuid DepositStatus.credited
      { creditedAt := some (some now), cardCreated := some (some false),
        cardId := some none }
      (markDepositAsConfirmed now p.uuid ds).1 _ hconf.2
    exact ⟨_, by rw [hmain]; exact hcred.2, rfl, rfl, rfl, by rw [hmain]⟩
  · cases hr : r.success with
    | true =>
      have hmain : kripicardWebhookPost freshId now (some r) p ds =
          ((markDepositAsCredited now p.uuid true r.cardId
            (markDepositAsConfirmed now p.uuid ds).1).1, 200, true) := by
        simp [kripicardWebhookPost, hfind, hst, hcc, hr]
      have hcred := updateDepositStatus_found p.uuid DepositStatus.credited
        { creditedAt := some (some now), cardCreated := some (some true),
          cardId := some r.cardId }
        (markDepositAsConfirmed now p.uuid ds).1 _ hconf.2
      exact ⟨_, by rw [hmain]; exact hcred.2, rfl,
        by simp [hr, applyPatch, Option.elim],
        by simp [hr, applyPatch, Option.elim], by rw [hmain]⟩
    | false =>
      have hmain : kripicardWebhookPost freshId now (some r) p ds =
          ((markDepositAsCredited now p.uuid false none
            (markDepositAsConfirmed now p.uuid ds).1).1, 200, true) := by
        simp [kripicardWebhookPost, hfind, hst, hcc, hr]
      have hcred := updateDepositStatus_found p.uuid DepositStatus.credited
        { creditedAt := some (some now), cardCreated := some (some false),
          cardId := some none }
        (markDepositAsConfirmed now p.uuid ds).1 _ hconf.2
      exact ⟨_, by rw [hmain]; exact hcred.2, rfl,
        by simp [hr, applyPatch, Option.elim],
        by simp [hr, applyPatch, Option.elim], by rw [hmain]⟩

/-- Concrete instance of the amended C3 theorem, on the success branch of
the card call. -/
theorem C3_card_call_outcome_witness :
    paidKripiPayload.status = "paid" ∧
    getDepositByPaymentId paidKripiPayload.uuid [sampleDeposit] =
      some sampleDeposit ∧
    sampleDeposit.cardCreated ≠ some true ∧
    (∃ d2, getDepositByPaymentId paidKripiPayload.uuid
        (kripicardWebhookPost ("dep-9") 7 (some okCardResult)
          paidKripiPayload [sampleDeposit]).1 = some d2 ∧
      d2.status = DepositStatus.credited ∧
      d2.cardCreated = some ((some okCardResult).elim false
        KripicardCreateResult.success) ∧
      d2.cardId = (some okCardResult).elim none
        (fun r => if r.success then r.cardId else none) ∧
      (kripicardWebhookPost ("dep-9") 7 (some okCardResult)
          paidKripiPayload [sampleDeposit]).2 = (200, true)) :=
  ⟨rfl, by decide, by decide,
    C3_card_call_outcome ("dep-9") 7 (some okCardResult) paidKripiPayload
      [sampleDeposit] sampleDeposit rfl (by decide) (by decide)⟩

/-- C4 is false as stated: `addPendingDeposit` appends unconditionally, so
adding a deposit whose `paymentId` already occurs in the ledger does produce
a second record with that `paymentId`. -/
theorem C4_counterexample :
    ¬ (paymentIds (addPendingDeposit ("dep-2") 5
        { paymentId := "pay-1", amountUsd := 10, currency := "SOL" }
        [sampleDeposit]).1).Nodup := by
  decide

/-- C4 (amended): `updateDepositStatus` and the second-variant webhook POST
preserve `paymentId`-uniqueness of the ledger — the handler appends only
after its lookup comes back empty — and `addPendingDeposit` preserves it
exactly when the added `paymentId` is not already present; called with a
duplicate it violates the invariant (see the counterexample), so uniqueness
rests on the call-site guard, not on the ledger itself. -/
theorem C4_uniqueness_preserved (pid : String) (st : DepositStatus)
    (pa : DepositPatch) (freshId : String) (now : Int)
    (cardCall : Option KripicardCreateResult) (p : KripicardWebhookPayload)
    (nd : NewDeposit) (ds : List PendingDeposit)
    (hu : (paymentIds ds).Nodup) :
    (paymentIds (updateDepositStatus pid st pa ds).1).Nodup ∧
    (paymentIds (kripicardWebhookPost freshId now cardCall p ds).1).Nodup ∧
    (nd.paymentId ∉ paymentIds ds →
      (paymentIds (addPendingDeposit freshId now nd ds).1).Nodup) := by
  refine ⟨by rw [paymentIds_updateDepositStatus]; exact hu, ?_, ?_⟩
  · rcases kripicardWebhookPost_paymentIds freshId now cardCall p ds with
      h | ⟨hn, h⟩
    · rw [h]; exact hu
    · rw [h]
      have hm : p.uuid ∉ paymentIds ds :=
        (getDepositByPaymentId_eq_none p.uuid ds).mp hn
      simp [List.nodup_append, hu, hm]
  · intro hm
    rw [paymentIds_addPendingDeposit]
    simp [List.nodup_append, hu, hm]

/-- Concrete instance of the amended C4 theorem. -/
theorem C4_uniqueness_preserved_witness :
    (paymentIds [sampleDeposit]).Nodup ∧
    (paymentIds (updateDepositStatus ("pay-1") DepositStatus.sent {}
        [sampleDeposit]).1).Nodup ∧
    (paymentIds (kripicardWebhookPost ("dep-3") 2 none paidKripiPayload
        [sampleDeposit]).1).Nodup ∧
    ("pay-9" ∉ paymentIds [sampleDeposit] →
      (paymentIds (addPendingDeposit ("dep-4") 2
        { paymentId := "pay-9", amountUsd := 1, currency := "SOL" }
        [sampleDeposit]).1).Nodup) :=
  ⟨by decide,
    C4_uniqueness_preserved ("pay-1") DepositStatus.sent {} ("dep-3") 2 none
      paidKripiPayload
      { paymentId := "pay-9", amountUsd := 1, currency := "SOL" }
      [sampleDeposit] (by decide)⟩

/-- C6 is false as stated: the property is not universal in the wallet.  A
wallet whose stored balance is negative is reachable through the very same
route (a credit of -1 on a fresh zeroed record, first conjunct); on such a
wallet a credit of 1 followed by a debit of 1 ends with balance 0 — not the
prior -1 — because the debit is rejected, and `totalSpent` does not grow by
the amount. -/
theorem C6_counterexample :
    (balanceUpdatePost 0 ⟨0, 0, 0, 0⟩ BalanceAction.credit (-1)).1 =
      ⟨-1, -1, 0, 0⟩ ∧
    (balanceUpdatePost 2
        (balanceUpdatePost 1 ⟨-1, -1, 0, 0⟩ BalanceAction.credit 1).1
        BalanceAction.debit 1).1 = ⟨0, 0, 0, 1⟩ ∧
    ((0 : ℚ) ≠ -1) ∧ ((0 : ℚ) ≠ 0 + 1) := by
  refine ⟨?_, ?_, by norm_num, by norm_num⟩
  · norm_num [balanceUpdatePost]
  · norm_num [balanceUpdatePost]

/-- C6 (amended): provided the wallet's stored balance is nonnegative before
the pair — which makes the debit's insufficient-balance check pass — a
credit of `amount` followed by a debit of the same `amount` returns the
balance to its prior value, while `totalDeposited` and `totalSpent` each
grow by exactly `amount`. -/
theorem C6_credit_then_debit (now1 now2 : Int) (current : UserBalance)
    (amount : ℚ) (h : 0 ≤ current.balance) :
    ((balanceUpdatePost now2
        (balanceUpdatePost now1 current BalanceAction.credit amount).1
        BalanceAction.debit amount).1.balance = current.balance) ∧
    ((balanceUpdatePost now2
        (balanceUpdatePost now1 current BalanceAction.credit amount).1
        BalanceAction.debit amount).1.totalDeposited =
      current.totalDeposited + amount) ∧
    ((balanceUpdatePost now2
        (balanceUpdatePost now1 current BalanceAction.credit amount).1
        BalanceAction.debit amount).1.totalSpent =
      current.totalSpent + amount) := by
  have hng : ¬ (current.balance + amount < amount) := by linarith
  simp [balanceUpdatePost, hng]

/-- Concrete instance of the amended C6 theorem. -/
theorem C6_credit_then_debit_witness :
    (0 : ℚ) ≤ (⟨10, 3, 2, 0⟩ : UserBalance).balance ∧
    ((balanceUpdatePost 6
        (balanceUpdatePost 5 ⟨10, 3, 2, 0⟩ BalanceAction.credit 4).1
        BalanceAction.debit 4).1.balance =
      (⟨10, 3, 2, 0⟩ : UserBalance).balance) ∧
    ((balanceUpdatePost 6
        (balanceUpdatePost 5 ⟨10, 3, 2, 0⟩ BalanceAction.credit 4).1
        BalanceAction.debit 4).1.totalDeposited =
      (⟨10, 3, 2, 0⟩ : UserBalance).totalDeposited + 4) ∧
    ((balanceUpdatePost 6
        (balanceUpdatePost 5 ⟨10, 3, 2, 0⟩ BalanceAction.credit 4).1
        BalanceAction.debit 4).1.totalSpent =
      (⟨10, 3, 2, 0⟩ : UserBalance).totalSpent + 4) :=
  ⟨by decide,
    (C6_credit_then_debit 5 6 ⟨10, 3, 2, 0⟩ 4 (by decide)).1,
    (C6_credit_then_debit 5 6 ⟨10, 3, 2, 0⟩ 4 (by decide)).2.1,
    (C6_credit_then_debit 5 6 ⟨10, 3, 2, 0⟩ 4 (by decide)).2.2⟩

/-- C7: a validly signed payload whose status indicates a successful payment
is stored under its order id as a `paid` record whose amount is the paid USD
amount minus the fee of 2 percent of that amount plus a flat 5, and the
response is the 200 success response. -/
theorem C7_paid_credit_amount
    (verify : CryptomusPayloadData → String → Bool) (now : Int)
    (p : CryptomusWebhookPayload) (store : WebhookStore)
    (hsig : verify p.toCryptomusPayloadData p.sign = true)
    (hpaid : isPaymentSuccessful p.status) :
    (depositWebhookPost verify now p store).2 = (200, true) ∧
    kvGetWebhookDeposit p.order_id
        (depositWebhookPost verify now p store).1 =
      some { orderId := p.order_id,
             walletAddress := p.additionalWallet.getD "",
             amount := p.payment_amount_usd -
               (p.payment_amount_usd * (2 / 100) + 5),
             status := "paid", paymentId := p.uuid,
             paidAt := some now } := by
  simp [depositWebhookPost, hsig, hpaid, kvGetWebhookDeposit,
    kvSetWebhookDeposit]

/-- Concrete instance of the C7 theorem: 100 USD paid is stored with the
credited amount 100 - (100 * 0.02 + 5) = 93. -/
theorem C7_paid_credit_amount_witness :
    acceptAllVerifier paid100Payload.toCryptomusPayloadData
        paid100Payload.sign = true ∧
    isPaymentSuccessful paid100Payload.status ∧
    paid100Payload.payment_amount_usd = 100 ∧
    kvGetWebhookDeposit paid100Payload.order_id
        (depositWebhookPost acceptAllVerifier 9 paid100Payload []).1 =
      some { orderId := "ord-7", walletAddress := "w7", amount := 93,
             status := "paid", paymentId := "u-7", paidAt := some 9 } := by
  refine ⟨rfl, Or.inl rfl, rfl, ?_⟩
  have h := C7_paid_credit_amount acceptAllVerifier 9 paid100Payload []
    rfl (Or.inl rfl)
  rw [h.2]
  norm_num [paid100Payload]

/-- C8 is false as stated: upserting an existing card does not keep the
stored values of fields the request leaves out — every one of the six
mutable fields is overwritten with the request's (possibly undefined)
value.  A request supplying only `cardId` and `walletAddress` clears the
stored `lastFour`, `balance`, `cardNumber`, `cvv`, `expiry` and
`cardHolder`. -/
theorem C8_counterexample :
    fullCard.cvv = some ("123") ∧ clearedCard.cvv = none ∧
    cardsStorePost ("card-uuid-2") 5 bareCardBody [fullCard] =
      some [clearedCard] := by
  exact ⟨rfl, rfl, by decide⟩

/-- C8 (amended): with a `cardId` already in the wallet's list, the first
matching record is replaced by `mergeCard`, which sets the six mutable
fields to exactly the request's values (absent ones become `undefined`)
while preserving `id`, `cardId`, `walletAddress`, `createdAt` and `status`,
and every other record is unchanged; with an unknown `cardId`, exactly one
fresh record with the generated id and `active` status is appended. -/
theorem C8_upsert_semantics (freshId : String) (now : Int)
    (b : CardPostBody) (l1 l2 cards : List StoredCard) (c : StoredCard)
    (hc : b.cardId ≠ "") (hw : b.walletAddress ≠ "") :
    ((∀ x ∈ l1, x.cardId ≠ b.cardId) → c.cardId = b.cardId →
      cardsStorePost freshId now b (l1 ++ c :: l2) =
        some (l1 ++ mergeCard c b :: l2)) ∧
    ((∀ x ∈ cards, x.cardId ≠ b.cardId) →
      cardsStorePost freshId now b cards =
        some (cards ++ [freshCard freshId now b])) := by
  have hv : ¬ (b.cardId = "" ∨ b.walletAddress = "") := by
    intro hor
    cases hor with
    | inl hx => exact hc hx
    | inr hx => exact hw hx
  constructor
  · intro h1 hcEq
    simp only [cardsStorePost, if_neg hv]
    rw [upsertCard_found freshId now b l1 l2 c h1 hcEq]
  · intro hn
    simp only [cardsStorePost, if_neg hv]
    rw [upsertCard_not_found freshId now b cards hn]

/-- Concrete instance of the amended C8 theorem, on the merge branch. -/
theorem C8_upsert_semantics_witness :
    bareCardBody.cardId ≠ "" ∧ bareCardBody.walletAddress ≠ "" ∧
    (∀ x ∈ ([] : List StoredCard), x.cardId ≠ bareCardBody.cardId) ∧
    fullCard.cardId = bareCardBody.cardId ∧
    cardsStorePost ("card-uuid-2") 5 bareCardBody ([] ++ fullCard :: []) =
      some ([] ++ mergeCard fullCard bareCardBody :: []) :=
  ⟨by decide, by decide, by decide, by decide,
    (C8_upsert_semantics ("card-uuid-2") 5 bareCardBody [] [] []
      fullCard (by decide) (by decide)).1 (by decide) (by decide)⟩

end TrenchBank
